import Mathlib

/-!
Verification development for the `remotemaker` package (AnatomicMaps/remotemaker).

The package ships two parallel implementations of the `RemoteMaker` client:
one in `remotemaker/__init__.py` (the "init" variant, v0.2.1, with disabled
websocket support) and one in `remotemaker/__main__.py` (the "main" variant,
the CLI controller).  Both are shallowly embedded below.  Server behaviour is
scripted: a run takes a function from the index of the HTTP request issued so
far to that request's outcome, and loops that the Python code expresses with
`while` are given explicit fuel, with a distinguished out-of-fuel outcome, so
that non-termination of the source loop is expressible as "out of fuel for
every fuel value".

Notes on the embedding:
* Python exceptions become explicit error values (`RunError`, `ReqResult`);
  a raising method returns its final object state alongside the error, since
  Python exceptions leave the mutated object observable.
* `QUEUED_POLL_TIME` and `REQUEST_QUEUED_MSG` are referenced by
  `__init__.py` but defined only in `__main__.py`; evaluating the undefined
  name in `__init__.py` raises `NameError`, which the init-variant embedding
  models faithfully (see `initCheckAndPrintLog`).
* Parsed JSON log records are association lists of string key/value pairs in
  insertion order, the shape of every record this protocol produces.
-/

/-- `MAX_REQUEST_RETRIES = 5` in `__init__.py` (`MAX_PROXY_RETRIES = 5` in
`__main__.py`): the bound of the request retry loop. -/
def MAX_REQUEST_RETRIES : Nat := 5

/-- `RUNNING_POLL_TIME = 1` (seconds), defined in both variants. -/
def RUNNING_POLL_TIME : Nat := 1

/-- `QUEUED_POLL_TIME = 20` (seconds), defined in `__main__.py` only. -/
def QUEUED_POLL_TIME : Nat := 20

/-- `MakerStatus.QUEUED`/`RUNNING` values accepted at submission:
`INITIAL_STATUS = [MakerStatus.QUEUED, MakerStatus.RUNNING]`. -/
def INITIAL_STATUS : List String := ["queued", "running"]

/-- `FINISHED_STATUS = [MakerStatus.TERMINATED, MakerStatus.ABORTED]`. -/
def FINISHED_STATUS : List String := ["terminated", "aborted"]

/-- A parsed JSON log record: a Python dict with string keys and string
values, kept in insertion order. -/
abbrev Dict := List (String × String)

/-- Python `d.get(k)`: `none` when the key is absent.  With duplicate keys
the last occurrence wins, as for Python dict construction. -/
def dictGet (d : Dict) (k : String) : Option String :=
  (d.reverse.find? (fun p => p.1 == k)).map (fun p => p.2)

/-- The JSON object shape of the maker server's responses, per the wire
contract: `response['status']`, `response['id']` (read by the init variant's
`__connect`), `response['process']` (read by the main variant's `__init__`),
and `response.get('log', '')`.  The embedding models contract-conformant
responses, in which the identifier fields are present. -/
structure MakeResponse where
  status : String
  id : String
  process : String
  log : String
deriving DecidableEq

/-- Errors a `RemoteMaker` run can raise. -/
inductive RunError where
  /-- `requests.Response.raise_for_status` raised `HTTPError` for this code. -/
  | httpError (status : Nat)
  /-- `IOError('Timed out: No response from ... after ... retries')`
  (`__init__.py:136`). -/
  | transportExhausted
  /-- `TypeError('Invalid JSON returned from server: ...')`. -/
  | malformedJson
  /-- `requests.ConnectTimeout` / `requests.ReadTimeout` escaping uncaught
  (possible only in the main variant, which has no `try`/`except`). -/
  | timeoutError
  /-- `IOError('Unexpected initial status')`. -/
  | unexpectedInitialStatus
  /-- `IOError('Unexpected response')` / `IOError('Unexpected response: ...')`. -/
  | unexpectedResponse
  /-- Python `NameError`: a module-level name evaluated but not defined
  (`QUEUED_POLL_TIME`, `REQUEST_QUEUED_MSG` in `__init__.py`). -/
  | nameError
  /-- `json.JSONDecodeError` raised by `json.loads` on a log line. -/
  | jsonDecodeError
deriving DecidableEq

/-- The outcome of one HTTP attempt made by `__request`: either a
connection/read timeout exception from `requests`, or a response with a
status code and a body that either parses as JSON (`some v`) or does not. -/
inductive Attempt where
  | timeout
  | response (status : Nat) (jsonBody : Option MakeResponse)
deriving DecidableEq

/-- The result of `RemoteMaker.__request` in `__init__.py`, plus a marker for
a still-running loop when the given fuel is exhausted. -/
inductive ReqResult where
  /-- `return response.json()`. -/
  | ok (v : MakeResponse)
  /-- `response.raise_for_status()` raised. -/
  | httpError (status : Nat)
  /-- `raise IOError(f'Timed out: No response from ... after ... retries')`. -/
  | transportExhausted
  /-- `raise TypeError(f'Invalid JSON returned from server: ...')`. -/
  | malformedJson
  /-- The `while` loop was still running after `fuel` iterations. -/
  | outOfFuel
deriving DecidableEq

/-- Result of a request together with the number of HTTP attempts issued and
the final value of the `retries` counter. -/
structure ReqTrace where
  result : ReqResult
  attempts : Nat
  retries : Nat
deriving DecidableEq

/-- The code after the retry loop of `__request` (`__init__.py:135-141`):
`if response is None: raise IOError(...)`, then `response.raise_for_status()`
(which raises `HTTPError` exactly for status codes in `[400, 600)`), then
`response.json()` with `JSONDecodeError` mapped to `TypeError`. -/
def requestFinish : Option (Nat × Option MakeResponse) → ReqResult
  | none => .transportExhausted
  | some (status, jsonBody) =>
    if 400 ≤ status ∧ status < 600 then .httpError status
    else match jsonBody with
      | some v => .ok v
      | none => .malformedJson

/-- The retry loop of `RemoteMaker.__request` in `__init__.py:120-134`:

  `retries = 0`, `response = None`,
  `while retries < MAX_REQUEST_RETRIES:` issue the attempt; on
  `ConnectTimeout`/`ReadTimeout` `continue` (note: without touching
  `retries`); `break` unless the status code is in `[502, 503, 504]`;
  otherwise `sleep(0.1)` and `retries += 1`.

`att i` is the outcome of the `i`-th HTTP attempt; `i` counts attempts
issued, `retries` is the Python counter, `resp` the current `response`
value.  Each loop iteration consumes one unit of fuel. -/
def requestLoop (att : Nat → Attempt) :
    Nat → Nat → Nat → Option (Nat × Option MakeResponse) → ReqTrace
  | 0, i, retries, _ => ⟨.outOfFuel, i, retries⟩
  | fuel+1, i, retries, resp =>
    if retries < MAX_REQUEST_RETRIES then
      match att i with
      | .timeout => requestLoop att fuel (i+1) retries resp
      | .response status jsonBody =>
        if status ∈ [502, 503, 504] then
          requestLoop att fuel (i+1) (retries+1) (some (status, jsonBody))
        else ⟨requestFinish (some (status, jsonBody)), i+1, retries⟩
    else ⟨requestFinish resp, i, retries⟩

/-- `RemoteMaker.__request` (`__init__.py:113-141`) against the scripted
attempt outcomes `att`, with `fuel` bounding the observed loop iterations. -/
def request (att : Nat → Attempt) (fuel : Nat) : ReqTrace :=
  requestLoop att fuel 0 0 none

/-- Attempt script for the first retry-bound scenario: four 503 responses
followed by a 200 response with a valid JSON body. -/
def attempts4x503 (i : Nat) : Attempt :=
  if i < 4 then .response 503 none
  else .response 200 (some ⟨"running", "p1", "p1", ""⟩)

/-- Attempt script in which every attempt returns HTTP 503. -/
def attemptsAll503 (_ : Nat) : Attempt :=
  .response 503 none

/-- Attempt script in which every attempt raises a read timeout. -/
def attemptsAllTimeout (_ : Nat) : Attempt :=
  .timeout

/-- C1 (counterexample): with five consecutive 503 responses, `__request`
stops after exactly 5 attempts but raises the `HTTPError` of the final 503
response (`response.raise_for_status()`), not the transport-exhausted
`IOError`, which requires `response is None`. -/
theorem claimC1_counterexample :
    request attemptsAll503 20 = ⟨.httpError 503, 5, 5⟩ ∧
    ReqResult.httpError 503 ≠ ReqResult.transportExhausted := by
  constructor
  · rfl
  · intro h
    exact ReqResult.noConfusion h

/-- C1 (amended): if the first 4 attempts receive 503 and the 5th receives
200 with a valid JSON body, `__request` succeeds after exactly 4 retries
(5 attempts); if all 5 attempts receive 503, it fails after exactly 5
attempts and no more — with the HTTP-status error of the final 503 response
raised by `raise_for_status`, not with the transport-exhausted error. -/
theorem claimC1_amended :
    request attempts4x503 20 = ⟨.ok ⟨"running", "p1", "p1", ""⟩, 5, 4⟩ ∧
    request attemptsAll503 20 = ⟨.httpError 503, 5, 5⟩ := by
  exact ⟨rfl, rfl⟩

/-- C2: on an attempt script in which every attempt raises a
connection/read timeout, the `__request` loop of `__init__.py` never
terminates: the `continue` skips the `retries += 1` line, so for every
amount of fuel the loop is still running, with `retries` still 0 and one
HTTP attempt issued per iteration.  In particular the transport-exhausted
branch (`response is None` after the loop) is unreachable, contradicting
its own error message `'... after 5 retries'`. -/
theorem claimC2_timeouts_retry_forever :
    ∀ (fuel i : Nat),
      requestLoop attemptsAllTimeout fuel i 0 none = ⟨.outOfFuel, i + fuel, 0⟩ := by
  intro fuel
  induction fuel with
  | zero => intro i; simp [requestLoop]
  | succ n ih =>
    intro i
    have h : requestLoop attemptsAllTimeout (n+1) i 0 none =
        requestLoop attemptsAllTimeout n (i+1) 0 none := by
      simp [requestLoop, MAX_REQUEST_RETRIES, attemptsAllTimeout]
    rw [h, ih (i+1)]
    congr 1
    omega

/-- The mutable state of an `__init__.py` `RemoteMaker` instance that the
embedded methods touch: `self.__status`, `self.__process`, `self.__uuid`,
`self.__print_log`, `self.__poll_time`, plus the records printed so far
(the instance's stdout, as a trace).  `self.__websocket` is always `None`:
`__check_websockets` is a stub whose connect code is commented out. -/
structure InitState where
  status : String
  process : String
  uuid : Option String
  print_log : Bool
  poll_time : Nat
  output : List Dict
deriving DecidableEq

/-- `RemoteMaker.__check_and_print_log_line` (`__init__.py:143-148`):

  if `log_data.get('level') == 'critical'` and
  `log_data.get('msg', '') == 'Mapmaker succeeded'` then
  `self.__uuid = log_data.get('uuid')`;
  if `self.__print_log`: `print(log_data)`. -/
def check_and_print_log_line (log_data : Dict) (s : InitState) : InitState :=
  let s :=
    if dictGet log_data "level" == some "critical" &&
        (dictGet log_data "msg").getD "" == "Mapmaker succeeded"
    then { s with uuid := dictGet log_data "uuid" }
    else s
  if s.print_log then { s with output := s.output ++ [log_data] } else s

/-- From the spec's words (§4.2): a record is a success marker when "its
severity field equals critical and its message field equals exactly the
configured success phrase" (`Mapmaker succeeded`). -/
def specSuccessMarker (d : Dict) : Prop :=
  dictGet d "level" = some "critical" ∧
  (dictGet d "msg").getD "" = "Mapmaker succeeded"

instance specSuccessMarker.decide (d : Dict) : Decidable (specSuccessMarker d) := by
  unfold specSuccessMarker
  infer_instance

/-- The success-marker record of the spec's example. -/
def sampleMarker : Dict :=
  [("level", "critical"), ("msg", "Mapmaker succeeded"), ("uuid", "abc-123")]

/-- A second success-marker record carrying a different uuid. -/
def otherMarker : Dict :=
  [("level", "critical"), ("msg", "Mapmaker succeeded"), ("uuid", "xyz-999")]

/-- An `InitState` as left by a fresh instance (modulo the constructor's
`NameError`, see the module docstring): no uuid, nothing printed. -/
def initState0 : InitState :=
  { status := "running", process := "p1", uuid := none,
    print_log := false, poll_time := QUEUED_POLL_TIME, output := [] }

/-- C5: `__check_and_print_log_line` latches `self.__uuid` from a record's
`uuid` field exactly when the record's `level` is `critical` and its `msg`
is exactly `Mapmaker succeeded`; any other record leaves the uuid unchanged;
the latch is independent of the `print_log` flag; and the spec's example
record latches `abc-123`. -/
theorem claimC5_success_marker_latch :
    ∀ (d : Dict) (s : InitState) (b : Bool),
      (check_and_print_log_line d s).uuid =
        (if specSuccessMarker d then dictGet d "uuid" else s.uuid) ∧
      (check_and_print_log_line d { s with print_log := b }).uuid =
        (check_and_print_log_line d s).uuid ∧
      (check_and_print_log_line sampleMarker s).uuid = some "abc-123" := by
  intro d s b
  refine ⟨?_, ?_, ?_⟩
  · by_cases h : specSuccessMarker d
    · obtain ⟨h1, h2⟩ := h
      simp [check_and_print_log_line, h1, h2, specSuccessMarker]
      split <;> simp
    · rw [if_neg h]
      unfold specSuccessMarker at h
      push_neg at h
      by_cases h1 : dictGet d "level" = some "critical"
      · have h2 := h h1
        simp [check_and_print_log_line, h1, h2]
        split <;> simp
      · simp [check_and_print_log_line, h1]
        split <;> simp
  · by_cases h : dictGet d "level" == some "critical" &&
        (dictGet d "msg").getD "" == "Mapmaker succeeded"
    · simp [check_and_print_log_line, h]
      split <;> split <;> simp
    · simp [check_and_print_log_line, h]
      split <;> split <;> simp
  · simp [check_and_print_log_line, sampleMarker, dictGet]
    split <;> simp

/-- C6 (counterexample): a second success-marker record with a different
`uuid` field overwrites the already-latched artifact id:
`self.__uuid = log_data.get('uuid')` runs unconditionally on every
success-marker record, so after `sampleMarker` then `otherMarker` the id is
`xyz-999`, no longer the latched `abc-123`. -/
theorem claimC6_counterexample :
    (check_and_print_log_line otherMarker
        (check_and_print_log_line sampleMarker initState0)).uuid = some "xyz-999" ∧
    some "xyz-999" ≠ some "abc-123" := by
  constructor
  · rfl
  · decide

/-- C6 (amended): the latched artifact id is never changed by records that
are not success markers — for every sequence of such records the id is
unchanged — but a further success-marker record overwrites the id with its
own `uuid` field (`None` when that field is absent). -/
theorem claimC6_amended :
    (∀ (rs : List Dict) (s : InitState),
      (∀ d ∈ rs, ¬ specSuccessMarker d) →
      (rs.foldl (fun st d => check_and_print_log_line d st) s).uuid = s.uuid) ∧
    (∀ (d : Dict) (s : InitState), specSuccessMarker d →
      (check_and_print_log_line d s).uuid = dictGet d "uuid") := by
  constructor
  · intro rs
    induction rs with
    | nil => intro s _; rfl
    | cons d rest ih =>
      intro s h
      have hd : ¬ specSuccessMarker d := h d (by simp)
      have hrest : ∀ d' ∈ rest, ¬ specSuccessMarker d' := by
        intro d' hd'
        exact h d' (by simp [hd'])
      rw [List.foldl_cons, ih (check_and_print_log_line d s) hrest]
      unfold specSuccessMarker at hd
      push_neg at hd
      by_cases h1 : dictGet d "level" = some "critical"
      · have h2 := hd h1
        simp [check_and_print_log_line, h1, h2]
        split <;> simp
      · simp [check_and_print_log_line, h1]
        split <;> simp
  · intro d s h
    obtain ⟨h1, h2⟩ := h
    simp [check_and_print_log_line, h1, h2]
    split <;> simp

/-- Witness for `claimC6_amended` at a concrete non-marker sequence and a
concrete marker record. -/
theorem claimC6_amended_witness :
    (([[("level", "info"), ("msg", "building")]] : List Dict).foldl
        (fun st d => check_and_print_log_line d st)
        { initState0 with uuid := some "abc-123" }).uuid = some "abc-123" ∧
    (check_and_print_log_line sampleMarker initState0).uuid =
      dictGet sampleMarker "uuid" := by
  constructor
  · exact claimC6_amended.1 [[("level", "info"), ("msg", "building")]]
      { initState0 with uuid := some "abc-123" } (by decide)
  · exact claimC6_amended.2 sampleMarker initState0 (by decide)

/-- Python `str.strip()` on a character list: drop leading and trailing
whitespace (`Char.isWhitespace` covers the space, tab, carriage-return and
newline characters that can occur around a maker log fragment). -/
def pyStripChars (cs : List Char) : List Char :=
  (((cs.dropWhile Char.isWhitespace).reverse).dropWhile Char.isWhitespace).reverse

/-- Python `str.strip()`. -/
def pyStrip (s : String) : String :=
  ⟨pyStripChars s.toList⟩

/-- Python `str.split('\n')` on a character list: the empty string gives
`['']`, and every newline separates two (possibly empty) parts. -/
def pySplitNlChars : List Char → List (List Char)
  | [] => [[]]
  | c :: cs =>
    if c = '\n' then [] :: pySplitNlChars cs
    else
      match pySplitNlChars cs with
      | [] => [[c]]
      | l :: ls => (c :: l) :: ls

/-- Python `str.split('\n')`. -/
def pySplitNl (s : String) : List String :=
  (pySplitNlChars s.toList).map (fun cs => ⟨cs⟩)

/-- Whitespace skipping inside a JSON log line (spaces and tabs; newlines
were already consumed by the fragment's line split). -/
def skipSpaces : List Char → List Char
  | ' ' :: cs => skipSpaces cs
  | '\t' :: cs => skipSpaces cs
  | cs => cs

/-- Parse the remainder of a JSON string literal after its opening quote;
`acc` holds the characters read so far, reversed.  Escape sequences do not
occur in the record shapes this client consumes and are rejected. -/
def parseJsonStringAux : List Char → List Char → Option (String × List Char)
  | [], _ => none
  | '"' :: cs, acc => some (⟨acc.reverse⟩, cs)
  | '\\' :: _, _ => none
  | c :: cs, acc => parseJsonStringAux cs (c :: acc)

/-- Parse a JSON string literal, returning it with the unconsumed rest. -/
def parseJsonString : List Char → Option (String × List Char)
  | '"' :: cs => parseJsonStringAux cs []
  | _ => none

/-- Parse the members of a JSON object after its opening brace, as
`"key": "value"` pairs separated by commas and closed by the matching
brace; `fuel` bounds the recursion by the input length. -/
def parseMembers : Nat → List Char → Option (Dict × List Char)
  | 0, _ => none
  | fuel+1, cs =>
    match parseJsonString (skipSpaces cs) with
    | none => none
    | some (k, cs1) =>
      match skipSpaces cs1 with
      | ':' :: cs2 =>
        match parseJsonString (skipSpaces cs2) with
        | none => none
        | some (v, cs3) =>
          match skipSpaces cs3 with
          | ',' :: cs4 => (parseMembers fuel cs4).map (fun p => ((k, v) :: p.1, p.2))
          | '\x7d' :: cs4 => some ([(k, v)], cs4)
          | _ => none
      | _ => none

/-- Model of Python `json.loads` restricted to the record shape the maker
log protocol produces: a flat JSON object with string keys and string
values and no escape sequences.  Anything else is a decode error (`none`),
which `__check_and_print_log` turns into the invalid-JSON `TypeError`. -/
def json_loads (line : String) : Option Dict :=
  match skipSpaces line.toList with
  | '\x7b' :: cs1 =>
    match skipSpaces cs1 with
    | '\x7d' :: cs2 => if skipSpaces cs2 = [] then some [] else none
    | cs1' =>
      match parseMembers (cs1'.length + 1) cs1' with
      | some (d, restCs) => if skipSpaces restCs = [] then some d else none
      | none => none
  | _ => none

/-- The `for line in log_lines` loop of `__check_and_print_log`
(`__init__.py:160-162`): parse each line with `json.loads` and feed the
record to `__check_and_print_log_line`.  A line that fails to parse raises
at that point, with the earlier lines of the fragment already processed. -/
def processLogLines : List String → InitState → InitState × Option RunError
  | [], s => (s, none)
  | line :: rest, s =>
    match json_loads line with
    | none => (s, some .jsonDecodeError)
    | some d => processLogLines rest (check_and_print_log_line d s)

/-- `RemoteMaker.__check_and_print_log` (`__init__.py:150-166`) in its
always-taken `self.__websocket is None` mode: set `self.__status` from the
response; when the status is `queued`, evaluating `REQUEST_QUEUED_MSG` for
`logging.info` raises `NameError` (the name is undefined in `__init__.py`);
otherwise set `self.__poll_time = RUNNING_POLL_TIME`; if the `log` field is
non-empty, strip it, split on newlines, and run each line through
`json.loads` and `__check_and_print_log_line`; finally raise
`IOError('Unexpected response: ...')` when the status is `unknown`.  The
final state accompanies any error, since the Python object keeps its
mutations when the method raises. -/
def initCheckAndPrintLog (resp : MakeResponse) (s : InitState) :
    InitState × Option RunError :=
  let s1 := { s with status := resp.status }
  if resp.status = "queued" then (s1, some .nameError)
  else
    let s2 := { s1 with poll_time := RUNNING_POLL_TIME }
    match (if resp.log ≠ "" then
        processLogLines (pySplitNl (pyStrip resp.log)) s2
      else (s2, none)) with
    | (s3, some e) => (s3, some e)
    | (s3, none) =>
      if resp.status = "unknown" then (s3, some .unexpectedResponse)
      else (s3, none)

/-- The mutable state of a `__main__.py` `RemoteMaker` instance:
`self.__status`, `self.__process`, `self.__last_log_line` (the log cursor),
`self.__poll_time`, and the blobs printed so far (its stdout trace). -/
structure MainState where
  status : String
  process : String
  last_log_line : Nat
  poll_time : Nat
  output : List String
deriving DecidableEq

/-- The body of `RemoteMaker.__check_and_print_log` in `__main__.py:127-142`
after its `__request` call (the request itself is issued by the run-loop
embedding): set `self.__status`; on `queued` only log the queued message
(`REQUEST_QUEUED_MSG` is defined in `__main__.py`); otherwise set
`self.__poll_time = RUNNING_POLL_TIME`; if the `log` field is non-empty,
`print` the stripped fragment and advance `self.__last_log_line` by the
length of its newline split; finally raise `IOError('Unexpected response')`
when the status is `unknown`. -/
def mainCheckAndPrintLog (resp : MakeResponse) (s : MainState) :
    MainState × Option RunError :=
  let s1 := { s with status := resp.status }
  let s2 := if resp.status = "queued" then s1
            else { s1 with poll_time := RUNNING_POLL_TIME }
  let s3 := if resp.log ≠ "" then
      let log_lines := pyStrip resp.log
      { s2 with output := s2.output ++ [log_lines],
                last_log_line := s2.last_log_line + (pySplitNl log_lines).length }
    else s2
  if resp.status = "unknown" then (s3, some .unexpectedResponse) else (s3, none)

/-- The lines of the stdout produced by a sequence of `print` calls: each
printed blob is followed by its own newline, so the stream's lines are the
newline splits of the blobs in order. -/
def stdoutLines (out : List String) : List String :=
  (out.map pySplitNl).flatten

/-- From the spec's words (§8): the number of non-empty newline-delimited
lines a fragment contains. -/
def specCountNonEmptyLines (f : String) : Nat :=
  ((pySplitNl f).filter (fun l => l ≠ "")).length

/-- A `__main__.py` instance state as left by the constructor for a job that
is already running: cursor 0, nothing printed. -/
def mainState0 : MainState :=
  { status := "running", process := "p1", last_log_line := 0,
    poll_time := RUNNING_POLL_TIME, output := [] }

/-- The state after feeding the fragments `"line1\n"` then
`"line2\nline3\n"` through the main-variant reconciler from `mainState0`. -/
def mainStateTwoFragments : MainState :=
  (mainCheckAndPrintLog ⟨"running", "p1", "p1", "line2\nline3\n"⟩
    (mainCheckAndPrintLog ⟨"running", "p1", "p1", "line1\n"⟩ mainState0).1).1

/-- C4 (counterexample): the fragment `"line1\n\nline2\n"` contains 2
non-empty newline-delimited lines, but reconciling it advances the cursor
by 3: the code counts every element of the newline split of the stripped
fragment, including empty ones. -/
theorem claimC4_counterexample :
    specCountNonEmptyLines "line1\n\nline2\n" = 2 ∧
    (mainCheckAndPrintLog ⟨"running", "p1", "p1", "line1\n\nline2\n"⟩
        mainState0).1.last_log_line = 3 ∧
    (3 : Nat) ≠ 2 := by
  refine ⟨by decide, by decide, by decide⟩

/-- C4 (amended): reconciling a non-empty poll fragment advances the log
cursor by the number of newline-separated parts of the whitespace-stripped
fragment — which equals N when the fragment consists of N newline-terminated
lines with no empty or whitespace-only line among them — and an empty
fragment leaves the cursor unchanged; the cursor is monotonically
non-decreasing; and feeding `"line1\n"` then `"line2\nline3\n"`
sequentially yields the printed lines `line1`, `line2`, `line3` in order
with the cursor ending at 3. -/
theorem claimC4_amended :
    (∀ (resp : MakeResponse) (s : MainState), resp.log ≠ "" →
      (mainCheckAndPrintLog resp s).1.last_log_line =
        s.last_log_line + (pySplitNl (pyStrip resp.log)).length) ∧
    (∀ (resp : MakeResponse) (s : MainState), resp.log = "" →
      (mainCheckAndPrintLog resp s).1.last_log_line = s.last_log_line) ∧
    (∀ (resp : MakeResponse) (s : MainState),
      s.last_log_line ≤ (mainCheckAndPrintLog resp s).1.last_log_line) ∧
    stdoutLines mainStateTwoFragments.output = ["line1", "line2", "line3"] ∧
    mainStateTwoFragments.last_log_line = 3 := by
  have hpos : ∀ (resp : MakeResponse) (s : MainState), resp.log ≠ "" →
      (mainCheckAndPrintLog resp s).1.last_log_line =
        s.last_log_line + (pySplitNl (pyStrip resp.log)).length := by
    intro resp s h
    simp [mainCheckAndPrintLog, h]
    split <;> split <;> simp
  have hneg : ∀ (resp : MakeResponse) (s : MainState), resp.log = "" →
      (mainCheckAndPrintLog resp s).1.last_log_line = s.last_log_line := by
    intro resp s h
    simp [mainCheckAndPrintLog, h]
    split <;> split <;> simp
  refine ⟨hpos, hneg, ?_, by decide, by decide⟩
  intro resp s
  by_cases h : resp.log = ""
  · rw [hneg resp s h]
  · rw [hpos resp s h]
    omega

/-- Witness for `claimC4_amended` at concrete fragments. -/
theorem claimC4_amended_witness :
    (mainCheckAndPrintLog ⟨"running", "p1", "p1", "a\nb\n"⟩
        mainState0).1.last_log_line =
      mainState0.last_log_line + (pySplitNl (pyStrip "a\nb\n")).length ∧
    (mainCheckAndPrintLog ⟨"running", "p1", "p1", ""⟩
        mainState0).1.last_log_line = mainState0.last_log_line := by
  constructor
  · exact claimC4_amended.1 ⟨"running", "p1", "p1", "a\nb\n"⟩ mainState0 (by decide)
  · exact claimC4_amended.2.1 ⟨"running", "p1", "p1", ""⟩ mainState0 rfl

/-- `RemoteMaker.__connect` (`__init__.py:232-241`) applied to the parsed
submission response: `self.__status = response['status']`; raise
`IOError('Unexpected initial status')` when the status is outside
`INITIAL_STATUS`; return `False` when it is `queued`; otherwise record
`self.__process = response['id']` and return `True`.  The returned pair is
(the boolean `__connect` returns, the process id it stored, if any). -/
def initConnect (resp : MakeResponse) : Except RunError (Bool × Option String) :=
  if resp.status ∉ INITIAL_STATUS then .error .unexpectedInitialStatus
  else if resp.status = "queued" then .ok (false, none)
  else .ok (true, some resp.id)

/-- The response handling of `RemoteMaker.__init__` (`__main__.py:93-101`):
`self.__status = response['status']`; raise `IOError('Unexpected initial
status')` when outside `INITIAL_STATUS` (when `queued`, only log the queued
message); then `self.__process = response['process']`,
`self.__last_log_line = 0`, and the poll time chosen by the initial
status. -/
def mainInit (resp : MakeResponse) : Except RunError MainState :=
  if resp.status ∉ INITIAL_STATUS then .error .unexpectedInitialStatus
  else .ok { status := resp.status, process := resp.process, last_log_line := 0,
             poll_time := if resp.status = "queued" then QUEUED_POLL_TIME
                          else RUNNING_POLL_TIME,
             output := [] }

/-- Outcome of a (partial) run of the init-variant controller. -/
inductive InitRunOutcome where
  /-- `run` returned this boolean, the instance in this final state. -/
  | result (accepted : Bool) (s : InitState)
  /-- `run` raised, the instance left in this state. -/
  | err (e : RunError) (s : InitState)
  /-- The polling loop was still running after the given fuel. -/
  | outOfFuel (s : InitState)
deriving DecidableEq

/-- The polling loop of `__poll_for_status_and_log` (`__init__.py:206-210`)
in its always-taken `self.__websocket is None` branch, followed by `run`'s
`return True`: while the status is not terminal, issue the log request
(`server i` scripts the outcome of the run's `i`-th HTTP request) and run
`__check_and_print_log`, sleeping `self.__poll_time` between polls; when
the loop exits, `run` returns `True` whatever the terminal status is. -/
def initRunLoop (server : Nat → Except RunError MakeResponse) :
    Nat → Nat → InitState → InitRunOutcome
  | 0, _, s => .outOfFuel s
  | fuel+1, i, s =>
    if s.status ∈ FINISHED_STATUS then .result true s
    else
      match server i with
      | .error e => .err e s
      | .ok resp =>
        match initCheckAndPrintLog resp s with
        | (s', some e) => .err e s'
        | (s', none) => initRunLoop server fuel (i+1) s'

/-- `RemoteMaker.run` (`__init__.py:243-249`): set `self.__print_log`, call
`__connect` (the run's HTTP request number 0); if it returns `False`
(`queued`), `run` returns `False`; otherwise poll until terminal and return
`True`.  Errors of `__connect` and of the poll loop propagate. -/
def initRun (server : Nat → Except RunError MakeResponse) (print_log : Bool)
    (fuel : Nat) : InitRunOutcome :=
  let s0 : InitState :=
    { status := "", process := "", uuid := none,
      print_log := print_log, poll_time := QUEUED_POLL_TIME, output := [] }
  match server 0 with
  | .error e => .err e s0
  | .ok resp =>
    let s1 := { s0 with status := resp.status }
    match initConnect resp with
    | .error e => .err e s1
    | .ok (false, _) => .result false s1
    | .ok (true, pid) => initRunLoop server fuel 1 { s1 with process := pid.getD "" }

/-- Outcome of a (partial) run of the main-variant controller. -/
inductive MainRunOutcome where
  /-- `run` returned this boolean, the instance in this final state. -/
  | result (terminated : Bool) (s : MainState)
  /-- `run` raised, the instance left in this state. -/
  | err (e : RunError) (s : MainState)
  /-- The polling loop was still running after the given fuel. -/
  | outOfFuel (s : MainState)
deriving DecidableEq

/-- `RemoteMaker.run` (`__main__.py:144-151`): while the status is not
terminal, issue the log request (`server i` scripts the outcome of the
run's `i`-th HTTP request) and run `__check_and_print_log`, sleeping
`self.__poll_time` between polls; once terminal, issue one further request
(`# Delete process record on server`) — a request whose failure raises out
of `run` — and return `self.__status == MakerStatus.TERMINATED`. -/
def mainRunLoop (server : Nat → Except RunError MakeResponse) :
    Nat → Nat → MainState → MainRunOutcome
  | 0, _, s => .outOfFuel s
  | fuel+1, i, s =>
    if s.status ∈ FINISHED_STATUS then
      match server i with
      | .error e => .err e s
      | .ok _ => .result (s.status == "terminated") s
    else
      match server i with
      | .error e => .err e s
      | .ok resp =>
        match mainCheckAndPrintLog resp s with
        | (s', some e) => .err e s'
        | (s', none) => mainRunLoop server fuel (i+1) s'

/-- A scripted server for the C3 counterexample: submission is accepted
with status `running`, the first poll reports `aborted`, nothing else is
ever needed. -/
def serverAborts : Nat → Except RunError MakeResponse :=
  fun i => if i = 0 then .ok ⟨"running", "p1", "p1", ""⟩
           else .ok ⟨"aborted", "p1", "p1", ""⟩

/-- C3 (counterexample): the init variant's `run(print_log)` returns `True`
for a job whose terminal status is `aborted`: `run` returns whether
`__connect` accepted the job, not whether the terminal status was
`terminated`. -/
theorem claimC3_counterexample :
    initRun serverAborts true 10 =
      .result true { status := "aborted", process := "p1", uuid := none,
                     print_log := true, poll_time := RUNNING_POLL_TIME,
                     output := [] } ∧
    "aborted" ≠ "terminated" := by
  constructor
  · decide
  · decide

/-- C3 (amended): the main variant's `run` returns `True` exactly when the
terminal status observed is `terminated`, and an error of the transport or
the reconciler propagates out of the loop unchanged; the init variant's
`run(print_log)`, by contrast, returns `True` whenever the poll loop
completes, whatever the terminal status. -/
theorem claimC3_amended :
    (∀ (server : Nat → Except RunError MakeResponse) (fuel i : Nat)
        (s s' : MainState) (b : Bool),
      mainRunLoop server fuel i s = .result b s' →
        ((b = true ↔ s'.status = "terminated") ∧ s'.status ∈ FINISHED_STATUS)) ∧
    (∀ (server : Nat → Except RunError MakeResponse) (fuel i : Nat)
        (s : MainState) (e : RunError),
      s.status ∉ FINISHED_STATUS → server i = .error e →
        mainRunLoop server (fuel+1) i s = .err e s) ∧
    (∀ (server : Nat → Except RunError MakeResponse) (fuel i : Nat)
        (s s' : InitState) (b : Bool),
      initRunLoop server fuel i s = .result b s' → b = true) := by
  refine ⟨?_, ?_, ?_⟩
  · intro server fuel
    induction fuel with
    | zero => intro i s s' b h; simp [mainRunLoop] at h
    | succ n ih =>
      intro i s s' b h
      simp only [mainRunLoop] at h
      split at h
      case isTrue hfin =>
        split at h
        · simp at h
        · cases h
          exact ⟨by simp, hfin⟩
      case isFalse hfin =>
        split at h
        · simp at h
        · split at h
          · simp at h
          · exact ih (i+1) _ s' b h
  · intro server fuel i s e hmem herr
    simp [mainRunLoop, hmem, herr]
  · intro server fuel
    induction fuel with
    | zero => intro i s s' b h; simp [initRunLoop] at h
    | succ n ih =>
      intro i s s' b h
      simp only [initRunLoop] at h
      split at h
      case isTrue hfin =>
        cases h
        rfl
      case isFalse hfin =>
        split at h
        · simp at h
        · split at h
          · simp at h
          · exact ih (i+1) _ s' b h

/-- Witness for `claimC3_amended` at concrete runs: a server that reports
`terminated`, a server whose poll request fails, and an init-variant run
over an `aborted` job. -/
theorem claimC3_amended_witness :
    ((true = true ↔ "terminated" = "terminated") ∧
      "terminated" ∈ FINISHED_STATUS) ∧
    mainRunLoop (fun _ => .error (.httpError 500)) 1 0 mainState0 =
      .err (.httpError 500) mainState0 ∧
    (true = true) := by
  refine ⟨?_, ?_, ?_⟩
  · exact claimC3_amended.1 (fun _ => .ok ⟨"terminated", "p1", "p1", ""⟩) 1 0
      { mainState0 with status := "terminated" }
      { mainState0 with status := "terminated" } true rfl
  · exact claimC3_amended.2.1 (fun _ => .error (.httpError 500)) 0 0 mainState0
      (.httpError 500) (by decide) rfl
  · exact claimC3_amended.2.2 serverAborts 9 1
      { status := "running", process := "p1", uuid := none, print_log := true,
        poll_time := QUEUED_POLL_TIME, output := [] }
      { status := "aborted", process := "p1", uuid := none, print_log := true,
        poll_time := RUNNING_POLL_TIME, output := [] } true rfl

/-- A scripted server for the C7 counterexample: the first poll reports the
job `terminated`; the post-termination cleanup request then fails with an
HTTP 500. -/
def serverCleanupFails : Nat → Except RunError MakeResponse :=
  fun i => if i = 0 then .ok ⟨"terminated", "p1", "p1", ""⟩
           else .error (.httpError 500)

/-- C7 (counterexample): with the job already observed `terminated`, a
failing cleanup request makes `run` raise instead of returning the known
terminal result: there is no `try`/`except` around the final `__request`
call of `run`. -/
theorem claimC7_counterexample :
    mainRunLoop serverCleanupFails 5 0 mainState0 =
      .err (.httpError 500) { mainState0 with status := "terminated" } ∧
    MainRunOutcome.err (.httpError 500) { mainState0 with status := "terminated" } ≠
      .result true { mainState0 with status := "terminated" } := by
  constructor
  · rfl
  · decide

/-- C7 (amended): once the poll loop has exited with a terminal status, the
one final cleanup request decides the outcome of `run`: if it fails, its
error propagates out of `run` (the terminal status notwithstanding); if it
succeeds, `run` returns whether the already-observed terminal status was
`terminated`. -/
theorem claimC7_amended :
    ∀ (server : Nat → Except RunError MakeResponse) (fuel i : Nat)
      (s : MainState),
      s.status ∈ FINISHED_STATUS →
      (∀ e, server i = .error e →
        mainRunLoop server (fuel+1) i s = .err e s) ∧
      (∀ r, server i = .ok r →
        mainRunLoop server (fuel+1) i s = .result (s.status == "terminated") s) := by
  intro server fuel i s hmem
  constructor
  · intro e he
    simp [mainRunLoop, hmem, he]
  · intro r hr
    simp [mainRunLoop, hmem, hr]

/-- Witness for `claimC7_amended`: both cleanup outcomes at a concrete
terminated state. -/
theorem claimC7_amended_witness :
    mainRunLoop (fun _ => .error (.httpError 500)) 1 0
        { mainState0 with status := "terminated" } =
      .err (.httpError 500) { mainState0 with status := "terminated" } ∧
    mainRunLoop (fun _ => .ok ⟨"terminated", "p1", "p1", ""⟩) 1 0
        { mainState0 with status := "terminated" } =
      .result ("terminated" == "terminated") { mainState0 with status := "terminated" } := by
  constructor
  · exact (claimC7_amended (fun _ => .error (.httpError 500)) 0 0
      { mainState0 with status := "terminated" } (by decide)).1 (.httpError 500) rfl
  · exact (claimC7_amended (fun _ => .ok ⟨"terminated", "p1", "p1", ""⟩) 0 0
      { mainState0 with status := "terminated" } (by decide)).2
      ⟨"terminated", "p1", "p1", ""⟩ rfl

/-- C8: submission raises `Unexpected initial status` exactly when the
response's status is outside `queued`/`running`; a `queued` response makes
`__connect` return `False` without error, a `running` one makes it return
`True` with the job id recorded; and the `__main__.py` constructor's check
errors on exactly the same statuses. -/
theorem claimC8_initial_status :
    ∀ (resp : MakeResponse),
      (initConnect resp = .error .unexpectedInitialStatus ↔
        resp.status ∉ INITIAL_STATUS) ∧
      (resp.status = "queued" → initConnect resp = .ok (false, none)) ∧
      (resp.status = "running" → initConnect resp = .ok (true, some resp.id)) ∧
      ((∃ e, mainInit resp = .error e) ↔ resp.status ∉ INITIAL_STATUS) := by
  intro resp
  refine ⟨?_, ?_, ?_, ?_⟩
  · by_cases h : resp.status ∈ INITIAL_STATUS
    · simp only [initConnect, h, not_true_eq_false, if_false, iff_false]
      split <;> simp
    · simp [initConnect, h]
  · intro h
    simp [initConnect, INITIAL_STATUS, h]
  · intro h
    simp [initConnect, INITIAL_STATUS, h]
  · by_cases h : resp.status ∈ INITIAL_STATUS
    · simp [mainInit, h]
    · simp [mainInit, h]

/-- Witness for `claimC8_initial_status` at concrete responses with each
kind of status. -/
theorem claimC8_initial_status_witness :
    initConnect ⟨"terminated", "p1", "p1", ""⟩ = .error .unexpectedInitialStatus ∧
    initConnect ⟨"queued", "p1", "p1", ""⟩ = .ok (false, none) ∧
    initConnect ⟨"running", "p1", "p1", ""⟩ = .ok (true, some "p1") := by
  refine ⟨?_, ?_, ?_⟩
  · exact (claimC8_initial_status ⟨"terminated", "p1", "p1", ""⟩).1.mpr (by decide)
  · exact (claimC8_initial_status ⟨"queued", "p1", "p1", ""⟩).2.1 rfl
  · exact (claimC8_initial_status ⟨"running", "p1", "p1", ""⟩).2.2.1 rfl

/-- A URL, as its sequence of characters. -/
abbrev Url := List Char

/-- The characters `urllib.parse` allows in a URL scheme (RFC 3986):
letters, digits, `+`, `-` and `.`. -/
def isSchemeChar (c : Char) : Bool :=
  c.isAlpha || c.isDigit || c = '+' || c = '-' || c = '.'

/-- Split a URL at its first colon: `some (pre, rest)` with the colon
consumed, or `none` when the URL contains no colon. -/
def splitAtColon : Url → Option (Url × Url)
  | [] => none
  | c :: cs =>
    if c = ':' then some ([], cs)
    else (splitAtColon cs).map (fun p => (c :: p.1, p.2))

/-- The scheme recognition of `urllib.parse.urlparse`: the prefix before
the first colon is the scheme when it is non-empty, starts with a letter
and consists of scheme characters, and it is reported lowercased;
otherwise the URL has no scheme.  The second component is the part after
the scheme separator (the whole URL when there is no scheme): `urlparse`
splits it further into netloc, path, params, query and fragment, and
`urlunparse` puts those back together — an inverse for the server URLs
this client handles — so the embedding keeps that part opaque. -/
def urlparseScheme (url : Url) : Url × Url :=
  match splitAtColon url with
  | some (pre, rest) =>
    if pre ≠ [] && pre.all isSchemeChar &&
        ((pre.head?.map Char.isAlpha).getD false)
    then (pre.map Char.toLower, rest)
    else ([], url)
  | none => ([], url)

/-- `ws_server` (`__init__.py:56-62`):
`urlunparse(urlparse(server)._replace(scheme = s))` with `s = 'wss'` when
the parsed scheme is `https` and `s = 'ws'` otherwise: the scheme is
replaced and everything after the scheme separator is kept. -/
def ws_server (server : Url) : Url :=
  let parts := urlparseScheme server
  if parts.1 = ['h', 't', 't', 'p', 's'] then
    ['w', 's', 's'] ++ ':' :: parts.2
  else
    ['w', 's'] ++ ':' :: parts.2

/-- C9: for every https URL the derived streaming endpoint substitutes only
the scheme, `https` becoming `wss`, and for every http URL `http` becomes
`ws`; the rest of the URL — host, port and path — is kept unchanged. -/
theorem claimC9_scheme_substituted :
    ∀ (rest : Url),
      ws_server ('h' :: 't' :: 't' :: 'p' :: 's' :: ':' :: rest) =
        'w' :: 's' :: 's' :: ':' :: rest ∧
      ws_server ('h' :: 't' :: 't' :: 'p' :: ':' :: rest) =
        'w' :: 's' :: ':' :: rest := by
  intro rest
  constructor
  · rfl
  · rfl

/-- A poll-mode log line carrying the spec's success-marker record. -/
def markerLine : String :=
  "\x7b\"level\": \"critical\", \"msg\": \"Mapmaker succeeded\", \"uuid\": \"abc-123\"\x7d"

/-- C10: when a polled response carries status `unknown`, the log lines of
that same response are consumed before the unexpected-response error is
raised.  Init variant, at a fragment holding the success-marker record:
for every prior state, the returned state has the artifact id latched and
the record printed when printing is enabled, and the error accompanies it.
Main variant, for every non-empty fragment: the returned state has the
stripped fragment printed and the cursor advanced by its line count, and
the error accompanies it. -/
theorem claimC10_error_after_consumption :
    ∀ (s : InitState) (sm : MainState) (f : String),
      ((initCheckAndPrintLog ⟨"unknown", "p1", "p1", markerLine⟩ s).2 =
          some .unexpectedResponse ∧
        (initCheckAndPrintLog ⟨"unknown", "p1", "p1", markerLine⟩ s).1.uuid =
          some "abc-123" ∧
        (s.print_log = true →
          (initCheckAndPrintLog ⟨"unknown", "p1", "p1", markerLine⟩ s).1.output =
            s.output ++ [sampleMarker])) ∧
      (f ≠ "" →
        mainCheckAndPrintLog ⟨"unknown", "p1", "p1", f⟩ sm =
          ({ sm with status := "unknown", poll_time := RUNNING_POLL_TIME,
                     output := sm.output ++ [pyStrip f],
                     last_log_line :=
                       sm.last_log_line + (pySplitNl (pyStrip f)).length },
            some .unexpectedResponse)) := by
  intro s sm f
  constructor
  · have hstate : initCheckAndPrintLog ⟨"unknown", "p1", "p1", markerLine⟩ s =
        (check_and_print_log_line sampleMarker
          { s with status := "unknown", poll_time := RUNNING_POLL_TIME },
         some .unexpectedResponse) := by
      rfl
    rw [hstate]
    refine ⟨rfl, ?_, ?_⟩
    · simp [check_and_print_log_line, sampleMarker, dictGet]
      split <;> simp
    · intro hp
      simp [check_and_print_log_line, sampleMarker, dictGet, hp]
  · intro hf
    simp [mainCheckAndPrintLog, hf]

/-- Witness for `claimC10_error_after_consumption` at a concrete prior
state with printing enabled and a concrete fragment. -/
theorem claimC10_witness :
    (initCheckAndPrintLog ⟨"unknown", "p1", "p1", markerLine⟩
        { initState0 with print_log := true }).1.output =
      ({ initState0 with print_log := true } : InitState).output ++ [sampleMarker] ∧
    mainCheckAndPrintLog ⟨"unknown", "p1", "p1", "x\n"⟩ mainState0 =
      ({ mainState0 with status := "unknown", poll_time := RUNNING_POLL_TIME,
                         output := mainState0.output ++ [pyStrip "x\n"],
                         last_log_line :=
                           mainState0.last_log_line +
                             (pySplitNl (pyStrip "x\n")).length },
        some .unexpectedResponse) := by
  constructor
  · exact (claimC10_error_after_consumption { initState0 with print_log := true }
      mainState0 "x\n").1.2.2 rfl
  · exact (claimC10_error_after_consumption { initState0 with print_log := true }
      mainState0 "x\n").2 (by decide)
